import Mathlib

/-!
Shallow embedding of `pkg/flasher/flash.go` from packer-builder-arm-image.

The flasher interacts with external collaborators (the packer UI, the image
opener, device enumeration, the chunked progress copier, the OS) which are
modelled as an oracle record `World`.  Each embedded function returns its
Go return value together with the list of observable effects it performed,
so that temporal claims (ordering of unmount / write / sync / verify-read)
can be stated about the produced event trace.

Bytes are modelled as `Nat`, Go strings for the interactive answers as
`List Char` (so that `strconv.Atoi`, `strings.TrimSpace`, `strings.ToLower`
and `strings.HasPrefix` can be modelled structurally; the whitespace and
lowercase tables cover the ASCII/Latin-1 range used by the claims), and the
md5 hash (an external library) as an oracle function `World.hashFn`.
-/

deriving instance DecidableEq for Except

namespace Flasher

/-- Error outcomes of a run.  Each constructor corresponds to one error
site of `flash.go`; `indexOutOfRange` models a Go runtime panic caused by
indexing a slice out of bounds. -/
inductive RunErr where
  | askErr
  | atoiErr
  | invalidImageChosen
  | invalidSelection
  | noDevices
  | enumErr
  | cfgDeviceNotFound
  | ambiguousDevice
  | cantFindSource
  | statErr (f : String)
  | openImageErr
  | canceledByUser
  | unmountErr (m : String)
  | openDevErr
  | copyErr
  | checksumMismatch
  | indexOutOfRange
deriving DecidableEq

/-- Model of `utils.Device`: one candidate target device. -/
structure Device where
  device : String
  name : String
  mountpoints : List String
deriving DecidableEq

/-- Model of `FlashConfig` from flash.go. -/
structure FlashConfig where
  image : String
  device : String
  notInteractive : Bool
  verify : Bool
deriving DecidableEq

/-- Model of `FlashResult` from flash.go: `sum` is `[]` when no checksummer
ran (Go `nil` slice). -/
structure FlashResult where
  sum : List Nat
  bytesWritten : Nat
deriving DecidableEq

/-- Observable effects of a run. -/
inductive Event where
  | say (msg : String)
  | asked (q : String)
  | umountCall (m : String)
  | openDev (path : String)
  | writeDev (path : String) (data : List Nat)
  | syncEv
  | readDev (path : String) (data : List Nat)
deriving DecidableEq

/-- Oracle for every external collaborator the flasher touches. -/
structure World where
  /-- Model of `packer.Ui.Ask`, keyed by the question text. -/
  ask : String → Except Unit (List Char)
  /-- Result of `imageutils.GetImageFilesInCurrentDir`. -/
  imageFiles : List String
  /-- Model of `os.Stat`, returning the modification time. -/
  stat : String → Except Unit Nat
  /-- Model of `image.ImageOpener.Open`: path to the byte stream it yields. -/
  openImage : String → Except Unit (List Nat)
  /-- Result of `utils.GetDetachableDevices`. -/
  detachables : Except Unit (List Device)
  /-- Tells whether `exec.Command("umount", m).Run()` fails for mountpoint `m`. -/
  umountFails : String → Bool
  /-- Tells whether `os.OpenFile` on the device path fails. -/
  openDevFails : String → Bool
  /-- Outcome of `utils.CopyWithProgress` in the flash phase:
  `none` means the whole input is copied, `some k` means the copy
  reports an error after `k` bytes. -/
  copyFail : Option Nat
  /-- Bytes the device yields when re-read during verification. -/
  readBack : List Nat
  /-- Tells whether `utils.CopyWithProgress` fails in the verify phase. -/
  verifyCopyFails : Bool
  /-- Digest oracle for `md5` (`newHasher`: feed bytes, take `Sum`). -/
  hashFn : List Nat → List Nat

/-! ### Go string helpers -/

/-- Whitespace as trimmed by `strings.TrimSpace` (Latin-1 range of
`unicode.IsSpace`). -/
def goIsSpace (c : Char) : Bool :=
  c == ' ' || c == '\t' || c == '\n' || c == Char.ofNat 11 ||
  c == Char.ofNat 12 || c == '\r' || c == Char.ofNat 0x85 || c == Char.ofNat 0xA0

/-- Model of `strings.ToLower` on one character (ASCII range). -/
def goToLowerChar (c : Char) : Char :=
  if 'A' ≤ c ∧ c ≤ 'Z' then Char.ofNat (c.toNat + 32) else c

/-- Model of `strings.ToLower` (ASCII range). -/
def goToLower (s : List Char) : List Char := s.map goToLowerChar

/-- Model of `strings.TrimSpace`. -/
def goTrimSpace (s : List Char) : List Char :=
  ((s.dropWhile goIsSpace).reverse.dropWhile goIsSpace).reverse

/-- Model of `strings.HasPrefix s p`: does `s` start with `p`. -/
def listStartsWith : List Char → List Char → Bool
  | _, [] => true
  | [], _ :: _ => false
  | c :: s, d :: p => c == d && listStartsWith s p

/-- Decimal value of a digit string. -/
def digitsVal (s : List Char) : Nat :=
  s.foldl (fun a c => a * 10 + (c.toNat - 48)) 0

/-- Model of `strconv.Atoi`: optional sign followed by at least one digit.
(The range error of 64-bit `Atoi` is not modelled: a huge numeric answer is
rejected either way, there by `ErrRange`, here by the subsequent bounds
check.) -/
def goAtoi (s : List Char) : Option Int :=
  match s with
  | [] => none
  | '+' :: rest =>
    if rest ≠ [] ∧ rest.all Char.isDigit then some (Int.ofNat (digitsVal rest)) else none
  | '-' :: rest =>
    if rest ≠ [] ∧ rest.all Char.isDigit then some (-(Int.ofNat (digitsVal rest))) else none
  | _ =>
    if s.all Char.isDigit then some (Int.ofNat (digitsVal s)) else none

/-! ### The flasher -/

/-- The numbered image menu built by `Choose`. -/
def imageMenu (files : List String) : String :=
  String.join (files.enum.map (fun p => toString (p.1 + 1) ++ ". " ++ p.2 ++ "\n"))

/-- The full question `Choose` asks. -/
def chooseQ (files : List String) : String :=
  imageMenu files ++ "Which image should we use (type number)?"

/-- The numbered device menu built by `getDevice`. -/
def deviceMenu (ds : List Device) : String :=
  "Which device should we choose?:\n" ++
    String.join (ds.enum.map
      (fun p => toString (p.1 + 1) ++ ". " ++ p.2.device ++ " (" ++ p.2.name ++ ")\n"))

/-- Embeds `flasher.Choose` (flash.go 148-167): menu over the image
candidates.  The bounds check is `index <= 0 || index > len(files)`. -/
def Choose (w : World) (files : List String) : Except RunErr String × List Event :=
  match w.ask (chooseQ files) with
  | .error _ => (.error .askErr, [.asked (chooseQ files)])
  | .ok answer =>
    match goAtoi answer with
    | none => (.error .atoiErr, [.asked (chooseQ files)])
    | some index =>
      if index ≤ 0 ∨ index > (files.length : Int) then
        (.error .invalidImageChosen, [.asked (chooseQ files)])
      else
        match files.get? (index - 1).toNat with
        | some f => (.ok f, [.asked (chooseQ files)])
        | none => (.error .indexOutOfRange, [.asked (chooseQ files)])

/-- Recursion of `flasher.getMostRecent` (flash.go 126-146): `max` and
`maxModified` are the Go local variables (`""` and the zero time). -/
def getMostRecentGo (w : World) : List String → String → Nat → Except RunErr String
  | [], max, _ => .ok max
  | f :: rest, max, maxModified =>
    match w.stat f with
    | .error _ => .error (.statErr f)
    | .ok t =>
      if max = "" then getMostRecentGo w rest f t
      else if maxModified < t then getMostRecentGo w rest f t
      else getMostRecentGo w rest max maxModified

/-- Embeds `flasher.getMostRecent`. -/
def getMostRecent (w : World) (files : List String) : Except RunErr String :=
  getMostRecentGo w files "" 0

/-- Embeds `flasher.getSource` (flash.go 100-124). -/
def getSource (cfg : FlashConfig) (w : World) : Except RunErr (List Nat) × List Event :=
  if cfg.image ≠ "" then
    match w.openImage cfg.image with
    | .ok img => (.ok img, [])
    | .error _ => (.error .openImageErr, [])
  else
    if w.imageFiles.length = 0 then (.error .cantFindSource, [])
    else if cfg.notInteractive then
      match getMostRecent w w.imageFiles with
      | .error e => (.error e, [])
      | .ok c =>
        match w.openImage c with
        | .ok img => (.ok img, [.say ("using image " ++ c)])
        | .error _ => (.error .openImageErr, [.say ("using image " ++ c)])
    else
      match (Choose w w.imageFiles).1 with
      | .error e => (.error e, (Choose w w.imageFiles).2)
      | .ok c =>
        match w.openImage c with
        | .ok img => (.ok img, (Choose w w.imageFiles).2 ++ [.say ("using image " ++ c)])
        | .error _ =>
          (.error .openImageErr, (Choose w w.imageFiles).2 ++ [.say ("using image " ++ c)])

/-- Embeds `flasher.getDevice` (flash.go 254-299).  In the interactive
branch the source decrements first and then checks
`i < 0 || i > len(detachables)`: a typed answer of `N+1` passes the check
and indexes one past the end of the slice. -/
def getDevice (cfg : FlashConfig) (w : World) : Except RunErr Device × List Event :=
  match w.detachables with
  | .error _ => (.error .enumErr, [])
  | .ok detachables =>
    if detachables.length = 0 then (.error .noDevices, [])
    else if cfg.device ≠ "" then
      match detachables.find? (fun d => d.device == cfg.device) with
      | some d => (.ok d, [])
      | none => (.error .cfgDeviceNotFound, [])
    else if cfg.notInteractive then
      if detachables.length ≠ 1 then (.error .ambiguousDevice, [])
      else
        match detachables.head? with
        | some d => (.ok d, [])
        | none => (.error .indexOutOfRange, [])
    else
      match w.ask (deviceMenu detachables) with
      | .error _ => (.error .askErr, [.asked (deviceMenu detachables)])
      | .ok answer =>
        match goAtoi answer with
        | none => (.error .atoiErr, [.asked (deviceMenu detachables)])
        | some idx =>
          if idx - 1 < 0 ∨ idx - 1 > (detachables.length : Int) then
            (.error .invalidSelection, [.asked (deviceMenu detachables)])
          else
            match detachables.get? (idx - 1).toNat with
            | some d => (.ok d, [.asked (deviceMenu detachables)])
            | none => (.error .indexOutOfRange, [.asked (deviceMenu detachables)])

/-- Recursion of `flasher.unmount` (flash.go 179-188): say, run `umount`,
stop at the first failure. -/
def unmountGo (w : World) : List String → Except RunErr Unit × List Event
  | [] => (.ok (), [])
  | m :: rest =>
    if w.umountFails m then
      (.error (.unmountErr m), [.say ("unmounting " ++ m), .umountCall m])
    else
      ((unmountGo w rest).1,
       .say ("unmounting " ++ m) :: .umountCall m :: (unmountGo w rest).2)

/-- Embeds `flasher.unmount`. -/
def unmount (w : World) (device : Device) : Except RunErr Unit × List Event :=
  unmountGo w device.mountpoints

/-- Embeds `flasher.flash` (flash.go 195-223).  Faithful detail: the error
value returned by `utils.CopyWithProgress` is never examined by the source
(`return &res, nil` follows unconditionally), so a failed copy still
produces an `.ok` result carrying the partial byte count. -/
def flash (cfg : FlashConfig) (w : World) (input : List Nat) (device : Device) :
    Except RunErr FlashResult × List Event :=
  if w.openDevFails device.device then (.error .openDevErr, [])
  else
    (.ok { sum :=
             if cfg.verify then
               w.hashFn (input.take (match w.copyFail with
                 | none => input.length
                 | some k => min k input.length))
             else []
           bytesWritten :=
             match w.copyFail with
             | none => input.length
             | some k => min k input.length },
     [.openDev device.device,
      .writeDev device.device (input.take (match w.copyFail with
        | none => input.length
        | some k => min k input.length))])

/-- Embeds `flasher.verify` (flash.go 225-252): re-open the device, read
back at most `BytesWritten` bytes through an `io.LimitedReader`, hash them
and compare with `Sum`. -/
def verify (w : World) (res : FlashResult) (dev : Device) :
    Except RunErr Unit × List Event :=
  if w.openDevFails dev.device then (.error .openDevErr, [])
  else
    if w.verifyCopyFails then
      (.error .copyErr,
       [.openDev dev.device, .readDev dev.device (w.readBack.take res.bytesWritten)])
    else if w.hashFn (w.readBack.take res.bytesWritten) == res.sum then
      (.ok (),
       [.openDev dev.device, .readDev dev.device (w.readBack.take res.bytesWritten)])
    else
      (.error .checksumMismatch,
       [.openDev dev.device, .readDev dev.device (w.readBack.take res.bytesWritten)])

/-- Embeds lines 82-97 of `flasher.Flash`: unmount, flash, `syscall.Sync()`,
then conditionally verify.  Faithful detail: the return value of `verify`
is discarded by the source (`f.verify(*res, dev)` on line 94 ignores the
error), so the run ends `.ok` even on a checksum mismatch. -/
def flashAndVerify (cfg : FlashConfig) (w : World) (img : List Nat) (dev : Device) :
    Except RunErr Unit × List Event :=
  match (unmount w dev).1 with
  | .error e => (.error e, (unmount w dev).2)
  | .ok _ =>
    match (flash cfg w img dev).1 with
    | .error e => (.error e, (unmount w dev).2 ++ (flash cfg w img dev).2)
    | .ok res =>
      if res.sum.length ≠ 0 then
        (.ok (), (unmount w dev).2 ++ (flash cfg w img dev).2 ++ .syncEv :: (verify w res dev).2)
      else
        (.ok (), (unmount w dev).2 ++ (flash cfg w img dev).2 ++ [.syncEv])

/-- The confirmation question of `Flash`. -/
def confirmQuestion : String := "Are you sure?"

/-- The consent predicate of `Flash` (flash.go 76-77):
`strings.HasPrefix("yes", strings.TrimSpace(strings.ToLower(answer)))`. -/
def confirmAccepted (answer : List Char) : Bool :=
  listStartsWith ['y', 'e', 's'] (goTrimSpace (goToLower answer))

/-- Embeds `flasher.Flash` (flash.go 57-98). -/
def Flash (cfg : FlashConfig) (w : World) : Except RunErr Unit × List Event :=
  match (getSource cfg w).1 with
  | .error e => (.error e, (getSource cfg w).2)
  | .ok img =>
    match (getDevice cfg w).1 with
    | .error e => (.error e, (getSource cfg w).2 ++ (getDevice cfg w).2)
    | .ok dev =>
      if cfg.notInteractive then
        ((flashAndVerify cfg w img dev).1,
         (getSource cfg w).2 ++ (getDevice cfg w).2 ++
           [.say ("Going to flash to " ++ dev.device ++ ".")] ++
           (flashAndVerify cfg w img dev).2)
      else
        match w.ask confirmQuestion with
        | .error _ =>
          (.error .askErr,
           (getSource cfg w).2 ++ (getDevice cfg w).2 ++
             [.say ("Going to flash to " ++ dev.device ++ ".")] ++ [.asked confirmQuestion])
        | .ok answer =>
          if confirmAccepted answer then
            ((flashAndVerify cfg w img dev).1,
             (getSource cfg w).2 ++ (getDevice cfg w).2 ++
               [.say ("Going to flash to " ++ dev.device ++ ".")] ++
               .asked confirmQuestion :: (flashAndVerify cfg w img dev).2)
          else
            (.error .canceledByUser,
             (getSource cfg w).2 ++ (getDevice cfg w).2 ++
               [.say ("Going to flash to " ++ dev.device ++ ".")] ++ [.asked confirmQuestion])

/-! ### Event classifiers -/

/-- Tells whether the event is a device write. -/
def isWriteEv : Event → Bool
  | .writeDev _ _ => true
  | _ => false

/-- Tells whether the event is a device read (the verifier's read-back). -/
def isReadEv : Event → Bool
  | .readDev _ _ => true
  | _ => false

/-- Tells whether the event is an unmount attempt. -/
def isUmountEv : Event → Bool
  | .umountCall _ => true
  | _ => false

/-- Events emitted by the selection phase only (prompting and printing). -/
def isSelectionEv : Event → Bool
  | .say _ => true
  | .asked _ => true
  | _ => false

/-- Pure fold mirroring the accumulator discipline of `getMostRecentGo`
(strictly-greater update), used to state the selection policy. -/
def pickMax (mt : String → Nat) : List String → String → Nat → String
  | [], mx, _ => mx
  | f :: rest, mx, t => if t < mt f then pickMax mt rest f (mt f) else pickMax mt rest mx t

/-! ### Concrete scenario data -/

/-- The single-device scenario of §8 of the specification. -/
def dev1 : Device := { device := "/dev/sdb", name := "USB Disk", mountpoints := ["/mnt/x"] }

/-- A second detachable device, for the ambiguity scenario. -/
def dev2 : Device := { device := "/dev/sdc", name := "SD Card", mountpoints := [] }

/-- A device with three mountpoints, for the unmount scenario. -/
def dev3 : Device := { device := "/dev/sdb", name := "d", mountpoints := ["/m1", "/m2", "/m3"] }

/-- A base world in which every collaborator is inert. -/
def baseW : World :=
  { ask := fun _ => .error ()
    imageFiles := []
    stat := fun _ => .error ()
    openImage := fun _ => .error ()
    detachables := .error ()
    umountFails := fun _ => false
    openDevFails := fun _ => false
    copyFail := none
    readBack := []
    verifyCopyFails := false
    hashFn := fun x => x }

/-- World for the interactive device menu: one device, scripted answer `a`. -/
def menuW (a : List Char) : World :=
  { baseW with detachables := .ok [dev1], ask := fun _ => .ok a }

/-- World for the interactive image menu: scripted answer `a`. -/
def chooseW (a : List Char) : World := { baseW with ask := fun _ => .ok a }

/-- Interactive configuration with nothing preconfigured. -/
def cfgInteractive : FlashConfig :=
  { image := "", device := "", notInteractive := false, verify := false }

/-- Non-interactive, fully configured run with verification on. -/
def cfgVerify : FlashConfig :=
  { image := "img", device := "/dev/sdb", notInteractive := true, verify := true }

/-- World for a verified flash of `[1, 2, 3]` whose device read-back is
corrupted to `[9, 9, 9]` before the verify pass. -/
def corruptW : World :=
  { baseW with
    openImage := fun _ => .ok [1, 2, 3]
    detachables := .ok [dev1]
    readBack := [9, 9, 9] }

/-- Same run, but the flash-phase chunked copy reports an I/O error after
2 bytes. -/
def copyFailW : World := { corruptW with copyFail := some 2 }

/-- Non-interactive configuration with no device configured. -/
def cfgAuto : FlashConfig :=
  { image := "img", device := "", notInteractive := true, verify := false }

/-- World with two detachable devices attached. -/
def twoDevW : World :=
  { baseW with detachables := .ok [dev1, dev2], openImage := fun _ => .ok [1] }

/-- World whose working directory holds `a.img` (older) and `b.img`
(newer). -/
def twoImgW : World :=
  { baseW with stat := fun f => if f == "a.img" then .ok 1
                                else if f == "b.img" then .ok 2 else .error () }

/-- Modification times of the two-image scenario. -/
def mtTwoImg : String → Nat := fun f => if f == "b.img" then 2 else 1

/-- World in which unmounting `/m2` fails. -/
def umountFailW : World := { baseW with umountFails := fun m => m == "/m2" }

/-- World with a fixed-width digest oracle, as md5 is. -/
def md5W : World := { baseW with hashFn := fun _ => List.replicate 16 0 }

/-- World for a healthy verified round-trip of `[1, 2, 3]`. -/
def healthyW : World := { baseW with readBack := [1, 2, 3] }

/-- Interactive but fully configured run, reaching the confirmation. -/
def cfgConfirm : FlashConfig :=
  { image := "img", device := "/dev/sdb", notInteractive := false, verify := false }

/-- World scripting the confirmation answer `no`. -/
def confirmNoW : World :=
  { baseW with openImage := fun _ => .ok [1]
               detachables := .ok [dev1]
               ask := fun _ => .ok ['n', 'o'] }

/-! ### Helper lemmas -/

theorem chooseTrace (w : World) (files : List String) :
    (Choose w files).2 = [.asked (chooseQ files)] := by
  unfold Choose
  repeat' split
  all_goals rfl

theorem selection_not_destructive (e : Event) (h : isSelectionEv e = true) :
    isWriteEv e = false ∧ isReadEv e = false ∧ isUmountEv e = false ∧ e ≠ .syncEv := by
  cases e <;> simp_all [isSelectionEv, isWriteEv, isReadEv, isUmountEv]

theorem getSource_events (cfg : FlashConfig) (w : World) :
    ∀ e ∈ (getSource cfg w).2, isSelectionEv e = true := by
  unfold getSource
  repeat' split
  all_goals simp [chooseTrace, isSelectionEv]

theorem getDevice_events (cfg : FlashConfig) (w : World) :
    ∀ e ∈ (getDevice cfg w).2, isSelectionEv e = true := by
  unfold getDevice
  repeat' split
  all_goals simp [isSelectionEv]

theorem unmountGo_events (w : World) (l : List String) :
    ∀ e ∈ (unmountGo w l).2, isReadEv e = false ∧ isWriteEv e = false ∧ e ≠ .syncEv := by
  induction l with
  | nil => simp [unmountGo]
  | cons m rest ih =>
    unfold unmountGo
    cases hm : w.umountFails m with
    | true => simp [isReadEv, isWriteEv]
    | false =>
      simp only [Bool.false_eq_true, if_false, List.mem_cons]
      intro e he
      rcases he with he | he | he
      · simp [he, isReadEv, isWriteEv]
      · simp [he, isReadEv, isWriteEv]
      · exact ih e he

theorem flash_events (cfg : FlashConfig) (w : World) (img : List Nat) (dev : Device) :
    ∀ e ∈ (flash cfg w img dev).2, isReadEv e = false := by
  unfold flash
  split
  · simp
  · intro e he
    simp at he
    rcases he with he | he <;> simp [he, isReadEv]

theorem flash_ok (cfg : FlashConfig) (w : World) (img : List Nat) (dev : Device)
    (ho : w.openDevFails dev.device = false) :
    ∃ res, (flash cfg w img dev).1 = .ok res := by
  simp [flash, ho]

theorem pickMax_spec (mt : String → Nat) :
    ∀ (files : List String) (mx : String) (t : Nat),
      (pickMax mt files mx t = mx ∧ ∀ f ∈ files, mt f ≤ t) ∨
      (∃ l1 l2, files = l1 ++ pickMax mt files mx t :: l2 ∧
        t < mt (pickMax mt files mx t) ∧
        (∀ f ∈ l1, mt f < mt (pickMax mt files mx t)) ∧
        (∀ f ∈ l2, mt f ≤ mt (pickMax mt files mx t))) := by
  intro files
  induction files with
  | nil => intro mx t; left; exact ⟨rfl, by simp⟩
  | cons f rest ih =>
    intro mx t
    by_cases h : t < mt f
    · rw [pickMax, if_pos h]
      rcases ih f (mt f) with ⟨heq, hle⟩ | ⟨l1, l2, hsplit, hgt, hlt, hle⟩
      · right
        refine ⟨[], rest, ?_, ?_, ?_, ?_⟩
        · rw [heq]; rfl
        · rw [heq]; exact h
        · simp
        · rw [heq]; exact hle
      · right
        set p := pickMax mt rest f (mt f) with hp
        refine ⟨f :: l1, l2, ?_, ?_, ?_, hle⟩
        · rw [hsplit]; rfl
        · exact lt_trans h hgt
        · intro g hg
          rcases List.mem_cons.mp hg with hg | hg
          · rw [hg]; exact hgt
          · exact hlt g hg
    · rw [pickMax, if_neg h]
      rcases ih mx t with ⟨heq, hle⟩ | ⟨l1, l2, hsplit, hgt, hlt, hle⟩
      · left
        refine ⟨heq, ?_⟩
        intro g hg
        rcases List.mem_cons.mp hg with hg | hg
        · rw [hg]; exact Nat.le_of_not_lt h
        · exact hle g hg
      · right
        set p := pickMax mt rest mx t with hp
        refine ⟨f :: l1, l2, ?_, hgt, ?_, hle⟩
        · rw [hsplit]; rfl
        · intro g hg
          rcases List.mem_cons.mp hg with hg | hg
          · rw [hg]; exact lt_of_le_of_lt (Nat.le_of_not_lt h) hgt
          · exact hlt g hg

theorem getMostRecentGo_eq_pickMax (w : World) (mt : String → Nat) :
    ∀ (files : List String) (mx : String) (t : Nat),
      (∀ f ∈ files, w.stat f = .ok (mt f)) → (∀ f ∈ files, f ≠ "") → mx ≠ "" →
      getMostRecentGo w files mx t = .ok (pickMax mt files mx t) := by
  intro files
  induction files with
  | nil => intros; rfl
  | cons f rest ih =>
    intro mx t hst hnn hmx
    have hf : w.stat f = .ok (mt f) := hst f (by simp)
    simp only [getMostRecentGo, hf]
    rw [if_neg hmx]
    by_cases h : t < mt f
    · rw [if_pos h, pickMax, if_pos h]
      exact ih f (mt f) (fun g hg => hst g (by simp [hg]))
        (fun g hg => hnn g (by simp [hg])) (hnn f (by simp))
    · rw [if_neg h, pickMax, if_neg h]
      exact ih mx t (fun g hg => hst g (by simp [hg]))
        (fun g hg => hnn g (by simp [hg])) hmx

theorem unmountGo_first_fail (w : World) :
    ∀ (l : List String) (k : Nat) (mk : String),
      l.get? k = some mk → w.umountFails mk = true →
      (∀ m ∈ l.take k, w.umountFails m = false) →
      unmountGo w l =
        (.error (.unmountErr mk),
         (l.take k).flatMap (fun m => [.say ("unmounting " ++ m), .umountCall m]) ++
           [.say ("unmounting " ++ mk), .umountCall mk]) := by
  intro l
  induction l with
  | nil => intro k mk hget _ _; simp at hget
  | cons m rest ih =>
    intro k mk hget hfail hpre
    cases k with
    | zero =>
      simp at hget
      subst hget
      simp [unmountGo, hfail]
    | succ k =>
      have hm : w.umountFails m = false := hpre m (by simp)
      have hstep : unmountGo w (m :: rest) =
          ((unmountGo w rest).1,
           .say ("unmounting " ++ m) :: .umountCall m :: (unmountGo w rest).2) := by
        simp [unmountGo, hm]
      rw [hstep, ih k mk (by simpa using hget) hfail
        (fun g hg => hpre g (by simp [hg]))]
      simp

theorem startsWith_yes_iff (a : List Char) :
    listStartsWith ['y', 'e', 's'] a = true ↔
      a = [] ∨ a = ['y'] ∨ a = ['y', 'e'] ∨ a = ['y', 'e', 's'] := by
  match a with
  | [] => simp [listStartsWith]
  | [c1] =>
    by_cases h1 : c1 = 'y'
    · subst h1; simp [listStartsWith]
    · have h1s : ¬('y' = c1) := fun hh => h1 hh.symm
      simp [listStartsWith, beq_iff_eq, h1, h1s]
  | [c1, c2] =>
    by_cases h1 : c1 = 'y'
    · subst h1
      by_cases h2 : c2 = 'e'
      · subst h2; simp [listStartsWith]
      · have h2s : ¬('e' = c2) := fun hh => h2 hh.symm
        simp [listStartsWith, beq_iff_eq, h2, h2s]
    · have h1s : ¬('y' = c1) := fun hh => h1 hh.symm
      simp [listStartsWith, beq_iff_eq, h1, h1s]
  | [c1, c2, c3] =>
    by_cases h1 : c1 = 'y'
    · subst h1
      by_cases h2 : c2 = 'e'
      · subst h2
        by_cases h3 : c3 = 's'
        · subst h3; simp [listStartsWith]
        · have h3s : ¬('s' = c3) := fun hh => h3 hh.symm
          simp [listStartsWith, beq_iff_eq, h3, h3s]
      · have h2s : ¬('e' = c2) := fun hh => h2 hh.symm
        simp [listStartsWith, beq_iff_eq, h2, h2s]
    · have h1s : ¬('y' = c1) := fun hh => h1 hh.symm
      simp [listStartsWith, beq_iff_eq, h1, h1s]
  | c1 :: c2 :: c3 :: c4 :: rest => simp [listStartsWith]

/-! ### Claim theorems -/

/-- C1: the image menu (`Choose`) rejects `0`, `N+1` and non-numeric
answers and maps an answer `k` of `[1, N]` to the `(k-1)`-indexed
candidate, but the device menu (`getDevice`) does not reject `N+1`: with
one device (`N = 1`) a typed answer of `2` passes the bounds check
`i < 0 || i > len(detachables)` and indexes `detachables[1]`, one past the
end of the slice (a Go runtime panic), instead of failing with the
invalid-selection error the claim requires. -/
theorem c1_menu_bounds_evaluation :
    (Choose (chooseW ['0']) ["a.img", "b.img"]).1 = .error .invalidImageChosen ∧
    (Choose (chooseW ['3']) ["a.img", "b.img"]).1 = .error .invalidImageChosen ∧
    (Choose (chooseW ['a', 'b', 'c']) ["a.img", "b.img"]).1 = .error .atoiErr ∧
    (Choose (chooseW ['2']) ["a.img", "b.img"]).1 = .ok "b.img" ∧
    (getDevice cfgInteractive (menuW ['0'])).1 = .error .invalidSelection ∧
    (getDevice cfgInteractive (menuW ['x'])).1 = .error .atoiErr ∧
    (getDevice cfgInteractive (menuW ['1'])).1 = .ok dev1 ∧
    (getDevice cfgInteractive (menuW ['3'])).1 = .error .invalidSelection ∧
    (getDevice cfgInteractive (menuW ['2'])).1 = .error .indexOutOfRange := by
  decide

/-- C2: with verification enabled and a corrupted device read-back, the
verifier does fail with the distinct checksum-mismatch error, but the
top-level `Flash` discards the return value of `verify` (flash.go line 94)
and reports overall success, so the mismatch is silently dropped rather
than surfaced as the claim requires. -/
theorem c2_checksum_mismatch_dropped :
    (flash cfgVerify corruptW [1, 2, 3] dev1).1 =
      .ok { sum := [1, 2, 3], bytesWritten := 3 } ∧
    (verify corruptW { sum := [1, 2, 3], bytesWritten := 3 } dev1).1 =
      .error .checksumMismatch ∧
    (Flash cfgVerify corruptW).1 = .ok () := by
  decide

/-- C3: when the flash-phase chunked copy reports an I/O error after 2 of
5 bytes, `flash` nevertheless returns an `.ok` result with the partial
byte count (the error from `utils.CopyWithProgress` is never examined,
flash.go line 215 followed by `return &res, nil`), and the whole run ends
in success, contradicting the claim that flash fails with a propagated
error. -/
theorem c3_copy_error_swallowed :
    copyFailW.copyFail = some 2 ∧
    flash cfgVerify copyFailW [1, 2, 3, 4, 5] dev1 =
      (.ok { sum := [1, 2], bytesWritten := 2 },
       [.openDev "/dev/sdb", .writeDev "/dev/sdb" [1, 2]]) ∧
    (Flash cfgVerify copyFailW).1 = .ok () := by
  decide

/-- C4: in a non-interactive run with no device configured, enumerating
more than one detachable device makes device resolution fail with the
ambiguous-device error and the whole run performs no device write, while
enumerating exactly one device resolves to it without prompting. -/
theorem c4_ambiguous_device_gate (cfg : FlashConfig) (w : World) (ds : List Device)
    (hdev : cfg.device = "") (hni : cfg.notInteractive = true)
    (hds : w.detachables = .ok ds) :
    (2 ≤ ds.length →
      getDevice cfg w = (.error .ambiguousDevice, []) ∧
      ∀ e ∈ (Flash cfg w).2, isWriteEv e = false) ∧
    (∀ d, ds = [d] → getDevice cfg w = (.ok d, [])) := by
  constructor
  · intro h2
    have hz : ¬ ds.length = 0 := by omega
    have h1 : ds.length ≠ 1 := by omega
    have hgd : getDevice cfg w = (.error .ambiguousDevice, []) := by
      unfold getDevice
      rw [hds]
      simp [hz, hdev, hni, h1]
    refine ⟨hgd, ?_⟩
    have hsel := getSource_events cfg w
    intro e he
    unfold Flash at he
    rcases hg : (getSource cfg w).1 with er | img
    · rw [hg] at he
      simp at he
      exact (selection_not_destructive e (hsel e he)).1
    · rw [hg, hgd] at he
      simp at he
      exact (selection_not_destructive e (hsel e he)).1
  · intro d hd1
    subst hd1
    unfold getDevice
    rw [hds]
    simp [hdev, hni]

/-- Witness for C4 at the two-device world. -/
theorem c4_ambiguous_device_gate_witness :
    cfgAuto.device = "" ∧ cfgAuto.notInteractive = true ∧
    twoDevW.detachables = .ok [dev1, dev2] ∧
    ((2 ≤ ([dev1, dev2] : List Device).length →
      getDevice cfgAuto twoDevW = (.error .ambiguousDevice, []) ∧
      ∀ e ∈ (Flash cfgAuto twoDevW).2, isWriteEv e = false) ∧
     (∀ d, ([dev1, dev2] : List Device) = [d] →
      getDevice cfgAuto twoDevW = (.ok d, []))) :=
  ⟨rfl, rfl, rfl, c4_ambiguous_device_gate cfgAuto twoDevW [dev1, dev2] rfl rfl rfl⟩

/-- C5: on a non-empty candidate list whose stats all succeed (and whose
names are non-empty, as directory scans produce), `getMostRecent` returns
a candidate that splits the list into strictly-older earlier candidates
and no-newer later candidates: the strictly most recent wins and the
first encountered wins on equal timestamps. -/
theorem c5_most_recent_strictly_greater (w : World) (mt : String → Nat)
    (files : List String)
    (hne : files ≠ [])
    (hnn : ∀ f ∈ files, f ≠ "")
    (hst : ∀ f ∈ files, w.stat f = .ok (mt f)) :
    ∃ m l1 l2, getMostRecent w files = .ok m ∧ files = l1 ++ m :: l2 ∧
      (∀ f ∈ l1, mt f < mt m) ∧ (∀ f ∈ l2, mt f ≤ mt m) := by
  cases files with
  | nil => exact absurd rfl hne
  | cons f rest =>
    have hf : w.stat f = .ok (mt f) := hst f (by simp)
    have h1 : getMostRecent w (f :: rest) = getMostRecentGo w rest f (mt f) := by
      simp [getMostRecent, getMostRecentGo, hf]
    rw [getMostRecentGo_eq_pickMax w mt rest f (mt f)
      (fun g hg => hst g (by simp [hg])) (fun g hg => hnn g (by simp [hg]))
      (hnn f (by simp))] at h1
    rcases pickMax_spec mt rest f (mt f) with ⟨heq, hle⟩ | ⟨l1, l2, hsplit, hgt, hlt, hle⟩
    · rw [heq] at h1
      refine ⟨f, [], rest, h1, rfl, by simp, hle⟩
    · set p := pickMax mt rest f (mt f) with hp
      refine ⟨p, f :: l1, l2, h1, ?_, ?_, hle⟩
      · rw [hsplit]; rfl
      · intro g hg
        rcases List.mem_cons.mp hg with hg | hg
        · rw [hg]; exact hgt
        · exact hlt g hg

/-- Witness for C5 at the `a.img` (older) / `b.img` (newer) scenario. -/
theorem c5_most_recent_strictly_greater_witness :
    (["a.img", "b.img"] : List String) ≠ [] ∧
    (∀ f ∈ (["a.img", "b.img"] : List String), f ≠ "") ∧
    (∀ f ∈ (["a.img", "b.img"] : List String), twoImgW.stat f = .ok (mtTwoImg f)) ∧
    (∃ m l1 l2, getMostRecent twoImgW ["a.img", "b.img"] = .ok m ∧
      ["a.img", "b.img"] = l1 ++ m :: l2 ∧
      (∀ f ∈ l1, mtTwoImg f < mtTwoImg m) ∧ (∀ f ∈ l2, mtTwoImg f ≤ mtTwoImg m)) :=
  ⟨by decide, by decide, by decide,
   c5_most_recent_strictly_greater twoImgW mtTwoImg ["a.img", "b.img"]
     (by decide) (by decide) (by decide)⟩

/-- C6: when the first failing mountpoint of the device is the one at
index `k`, `unmount` announces and attempts exactly the mountpoints up to
and including index `k` in list order (each announcement immediately
preceding its attempt), returns that failure, and attempts nothing further
and performs no other effect (no re-mount exists in its trace). -/
theorem c6_unmount_stops_at_first_failure (w : World) (dev : Device) (k : Nat)
    (mk : String)
    (hget : dev.mountpoints.get? k = some mk)
    (hfail : w.umountFails mk = true)
    (hpre : ∀ m ∈ dev.mountpoints.take k, w.umountFails m = false) :
    unmount w dev =
      (.error (.unmountErr mk),
       (dev.mountpoints.take k).flatMap
           (fun m => [.say ("unmounting " ++ m), .umountCall m]) ++
         [.say ("unmounting " ++ mk), .umountCall mk]) :=
  unmountGo_first_fail w dev.mountpoints k mk hget hfail hpre

/-- Witness for C6: three mountpoints, failure on the second. -/
theorem c6_unmount_stops_at_first_failure_witness :
    dev3.mountpoints.get? 1 = some "/m2" ∧
    umountFailW.umountFails "/m2" = true ∧
    (∀ m ∈ dev3.mountpoints.take 1, umountFailW.umountFails m = false) ∧
    unmount umountFailW dev3 =
      (.error (.unmountErr "/m2"),
       (dev3.mountpoints.take 1).flatMap
           (fun m => [.say ("unmounting " ++ m), .umountCall m]) ++
         [.say ("unmounting " ++ "/m2"), .umountCall "/m2"]) :=
  ⟨by decide, by decide, by decide,
   c6_unmount_stops_at_first_failure umountFailW dev3 1 "/m2"
     (by decide) (by decide) (by decide)⟩

/-- C7: with a fixed-width digest oracle (md5 yields 16 bytes), the flash
result's checksum is non-empty exactly when verification was requested,
and downstream that presence is the sole gate: with `verify = false` the
run ends after the sync with no verify pass (no device read in the whole
trace), with `verify = true` the verify pass runs after the sync. -/
theorem c7_checksum_presence_gates_verify (cfg : FlashConfig) (w : World)
    (img : List Nat) (dev : Device) (evsU : List Event)
    (hh : ∀ x, (w.hashFn x).length = 16)
    (ho : w.openDevFails dev.device = false)
    (hu : unmount w dev = (.ok (), evsU)) :
    ∃ res evsF, flash cfg w img dev = (.ok res, evsF) ∧
      (res.sum ≠ [] ↔ cfg.verify = true) ∧
      (cfg.verify = false →
        flashAndVerify cfg w img dev = (.ok (), evsU ++ evsF ++ [.syncEv]) ∧
        ∀ e ∈ (flashAndVerify cfg w img dev).2, isReadEv e = false) ∧
      (cfg.verify = true →
        flashAndVerify cfg w img dev =
          (.ok (), evsU ++ evsF ++ .syncEv :: (verify w res dev).2)) := by
  have hf : flash cfg w img dev =
      (.ok { sum :=
               if cfg.verify then
                 w.hashFn (img.take (match w.copyFail with
                   | none => img.length
                   | some k => min k img.length))
               else []
             bytesWritten :=
               match w.copyFail with
               | none => img.length
               | some k => min k img.length },
       [.openDev dev.device,
        .writeDev dev.device (img.take (match w.copyFail with
          | none => img.length
          | some k => min k img.length))]) := by
    simp [flash, ho]
  refine ⟨_, _, hf, ?_, ?_, ?_⟩
  · cases hv : cfg.verify with
    | true =>
      have h16 := hh (img.take (match w.copyFail with
        | none => img.length
        | some k => min k img.length))
      simp only [hv, if_true]
      constructor
      · intro _; trivial
      · intro _ hcon
        rw [hcon] at h16
        simp at h16
    | false => simp [hv]
  · intro hv
    have hfv : flashAndVerify cfg w img dev =
        (.ok (), evsU ++ (flash cfg w img dev).2 ++ [.syncEv]) := by
      unfold flashAndVerify
      rw [hu, hf]
      simp [hv]
    constructor
    · rw [hfv, hf]
    · rw [hfv]
      intro e he
      simp only [List.mem_append, List.mem_singleton] at he
      rcases he with (he | he) | he
      · have hevsU : (unmountGo w dev.mountpoints).2 = evsU := by
          have h2 : (unmount w dev).2 = evsU := by rw [hu]
          exact h2
        rw [← hevsU] at he
        exact (unmountGo_events w dev.mountpoints e he).1
      · rw [hf] at he
        simp at he
        rcases he with he | he <;> simp [he, isReadEv]
      · simp [he, isReadEv]
  · intro hv
    unfold flashAndVerify
    rw [hu, hf]
    have h16 := hh (img.take (match w.copyFail with
      | none => img.length
      | some k => min k img.length))
    simp [hv, h16]

/-- Witness for C7 at the fixed-width digest world. -/
theorem c7_checksum_presence_gates_verify_witness :
    (∀ x, (md5W.hashFn x).length = 16) ∧
    md5W.openDevFails dev1.device = false ∧
    unmount md5W dev1 = (.ok (), [.say "unmounting /mnt/x", .umountCall "/mnt/x"]) ∧
    (∃ res evsF, flash cfgVerify md5W [1, 2, 3] dev1 = (.ok res, evsF) ∧
      (res.sum ≠ [] ↔ cfgVerify.verify = true) ∧
      (cfgVerify.verify = false →
        flashAndVerify cfgVerify md5W [1, 2, 3] dev1 =
          (.ok (), [.say "unmounting /mnt/x", .umountCall "/mnt/x"] ++ evsF ++ [.syncEv]) ∧
        ∀ e ∈ (flashAndVerify cfgVerify md5W [1, 2, 3] dev1).2, isReadEv e = false) ∧
      (cfgVerify.verify = true →
        flashAndVerify cfgVerify md5W [1, 2, 3] dev1 =
          (.ok (), [.say "unmounting /mnt/x", .umountCall "/mnt/x"] ++ evsF ++
            .syncEv :: (verify md5W res dev1).2))) :=
  ⟨fun x => rfl, rfl, by decide,
   c7_checksum_presence_gates_verify cfgVerify md5W [1, 2, 3] dev1
     [.say "unmounting /mnt/x", .umountCall "/mnt/x"] (fun x => rfl) rfl (by decide)⟩

/-- C8: round-trip.  With verification requested, a fully successful copy
and a healthy device (re-reading the written region returns the written
bytes), the flash phase records the digest of the written bytes, the
verifier re-reads exactly `bytesWritten` bytes (a bounded read), applies
the same digest function, and succeeds: the digest is a function, so
hashing the same bytes twice yields the same output. -/
theorem c8_verify_roundtrip (cfg : FlashConfig) (w : World) (img : List Nat)
    (dev : Device)
    (hv : cfg.verify = true)
    (ho : w.openDevFails dev.device = false)
    (hc : w.copyFail = none)
    (hvc : w.verifyCopyFails = false)
    (hhealthy : w.readBack.take img.length = img) :
    flash cfg w img dev =
      (.ok { sum := w.hashFn img, bytesWritten := img.length },
       [.openDev dev.device, .writeDev dev.device img]) ∧
    (w.readBack.take img.length).length = img.length ∧
    verify w { sum := w.hashFn img, bytesWritten := img.length } dev =
      (.ok (), [.openDev dev.device, .readDev dev.device img]) := by
  refine ⟨?_, ?_, ?_⟩
  · simp [flash, ho, hc, hv]
  · rw [hhealthy]
  · simp [verify, ho, hvc, hhealthy]

/-- Witness for C8 at a healthy three-byte device. -/
theorem c8_verify_roundtrip_witness :
    cfgVerify.verify = true ∧
    healthyW.openDevFails dev1.device = false ∧
    healthyW.copyFail = none ∧
    healthyW.verifyCopyFails = false ∧
    healthyW.readBack.take ([1, 2, 3] : List Nat).length = [1, 2, 3] ∧
    (flash cfgVerify healthyW [1, 2, 3] dev1 =
      (.ok { sum := healthyW.hashFn [1, 2, 3], bytesWritten := ([1, 2, 3] : List Nat).length },
       [.openDev dev1.device, .writeDev dev1.device [1, 2, 3]]) ∧
     (healthyW.readBack.take ([1, 2, 3] : List Nat).length).length =
       ([1, 2, 3] : List Nat).length ∧
     verify healthyW
         { sum := healthyW.hashFn [1, 2, 3], bytesWritten := ([1, 2, 3] : List Nat).length }
         dev1 =
       (.ok (), [.openDev dev1.device, .readDev dev1.device [1, 2, 3]])) :=
  ⟨rfl, rfl, rfl, rfl, by decide,
   c8_verify_roundtrip cfgVerify healthyW [1, 2, 3] dev1 rfl rfl rfl rfl (by decide)⟩

/-- C9 counterexample: the claim as stated places the storage sync inside
the flash function, before it returns.  In the embedded run below the copy
completes and `flash` returns, yet its own effect trace contains no sync
event: the source performs `syscall.Sync()` in `Flash`, after `flash` has
already returned (flash.go line 91). -/
theorem c9_counterexample_no_sync_in_flash :
    (flash cfgVerify corruptW [1, 2, 3] dev1).1 =
      .ok { sum := [1, 2, 3], bytesWritten := 3 } ∧
    Event.syncEv ∉ (flash cfgVerify corruptW [1, 2, 3] dev1).2 := by
  decide

/-- C9 (amended): the sync is forced by the caller after `flash` returns
and before any verify pass: whenever the run reaches the flash phase
(unmount succeeded, device opens), the post-confirmation trace contains a
sync event and no device read precedes it, so the verifier never reads
before the sync. -/
theorem c9_sync_after_flash_before_verify_read (cfg : FlashConfig) (w : World)
    (img : List Nat) (dev : Device) (evsU : List Event)
    (hu : unmount w dev = (.ok (), evsU))
    (ho : w.openDevFails dev.device = false) :
    ∃ pre post,
      (flashAndVerify cfg w img dev).1 = .ok () ∧
      (flashAndVerify cfg w img dev).2 = pre ++ .syncEv :: post ∧
      ∀ e ∈ pre, isReadEv e = false := by
  obtain ⟨res, hres⟩ := flash_ok cfg w img dev ho
  have hpre : ∀ e ∈ evsU ++ (flash cfg w img dev).2, isReadEv e = false := by
    intro e he
    rcases List.mem_append.mp he with he | he
    · have hevsU : (unmountGo w dev.mountpoints).2 = evsU := by
        have h2 : (unmount w dev).2 = evsU := by rw [hu]
        exact h2
      rw [← hevsU] at he
      exact (unmountGo_events w dev.mountpoints e he).1
    · exact flash_events cfg w img dev e he
  have hfv : flashAndVerify cfg w img dev =
      (.ok (), evsU ++ (flash cfg w img dev).2 ++
        (if res.sum.length ≠ 0 then .syncEv :: (verify w res dev).2 else [.syncEv])) := by
    unfold flashAndVerify
    simp only [hu]
    rw [hres]
    by_cases hs : res.sum.length ≠ 0 <;> simp [hs]
  by_cases hs : res.sum.length ≠ 0
  · refine ⟨evsU ++ (flash cfg w img dev).2, (verify w res dev).2, ?_, ?_, hpre⟩
    · rw [hfv]
    · rw [hfv]
      simp [hs]
  · refine ⟨evsU ++ (flash cfg w img dev).2, [], ?_, ?_, hpre⟩
    · rw [hfv]
    · rw [hfv]
      simp [hs]

/-- Witness for the amended C9 at the corrupted-read world. -/
theorem c9_sync_after_flash_before_verify_read_witness :
    unmount corruptW dev1 = (.ok (), [.say "unmounting /mnt/x", .umountCall "/mnt/x"]) ∧
    corruptW.openDevFails dev1.device = false ∧
    (∃ pre post,
      (flashAndVerify cfgVerify corruptW [1, 2, 3] dev1).1 = .ok () ∧
      (flashAndVerify cfgVerify corruptW [1, 2, 3] dev1).2 = pre ++ .syncEv :: post ∧
      ∀ e ∈ pre, isReadEv e = false) :=
  ⟨by decide, rfl,
   c9_sync_after_flash_before_verify_read cfgVerify corruptW [1, 2, 3] dev1
     [.say "unmounting /mnt/x", .umountCall "/mnt/x"] (by decide) rfl⟩

/-- C10: in an interactive run that reaches the confirmation, the answer
is accepted exactly when, after lowercasing and trimming, it is a prefix
of "yes" (one of "", "y", "ye", "yes"); in particular the empty answer
confirms; any other answer makes `Flash` fail with the cancellation error
while the whole trace holds no unmount attempt and no device write; an
accepted answer proceeds to the unmount/flash/verify phase. -/
theorem c10_confirmation_prefix_of_yes (cfg : FlashConfig) (w : World)
    (img : List Nat) (dev : Device) (answer : List Char) (evsS evsD : List Event)
    (hi : cfg.notInteractive = false)
    (hs : getSource cfg w = (.ok img, evsS))
    (hd : getDevice cfg w = (.ok dev, evsD))
    (ha : w.ask confirmQuestion = .ok answer) :
    (confirmAccepted answer = true ↔
      goTrimSpace (goToLower answer) = [] ∨
      goTrimSpace (goToLower answer) = ['y'] ∨
      goTrimSpace (goToLower answer) = ['y', 'e'] ∨
      goTrimSpace (goToLower answer) = ['y', 'e', 's']) ∧
    confirmAccepted [] = true ∧
    (confirmAccepted answer = false →
      (Flash cfg w).1 = .error .canceledByUser ∧
      ∀ e ∈ (Flash cfg w).2, isUmountEv e = false ∧ isWriteEv e = false) ∧
    (confirmAccepted answer = true →
      Flash cfg w =
        ((flashAndVerify cfg w img dev).1,
         evsS ++ evsD ++ [.say ("Going to flash to " ++ dev.device ++ ".")] ++
           .asked confirmQuestion :: (flashAndVerify cfg w img dev).2)) := by
  have hS2 : (getSource cfg w).2 = evsS := by rw [hs]
  have hD2 : (getDevice cfg w).2 = evsD := by rw [hd]
  refine ⟨startsWith_yes_iff (goTrimSpace (goToLower answer)), by decide, ?_, ?_⟩
  · intro hno
    have hFl : Flash cfg w =
        (.error .canceledByUser,
         evsS ++ evsD ++ [.say ("Going to flash to " ++ dev.device ++ ".")] ++
           [.asked confirmQuestion]) := by
      unfold Flash
      rw [hs, hd]
      simp [hi, ha, hno]
    constructor
    · rw [hFl]
    · rw [hFl]
      intro e he
      simp only [List.append_assoc, List.mem_append, List.mem_cons,
        List.mem_singleton, List.not_mem_nil, or_false] at he
      rcases he with he | he | he | he
      · have hnd := selection_not_destructive e
          (getSource_events cfg w e (by rw [hS2]; exact he))
        exact ⟨hnd.2.2.1, hnd.1⟩
      · have hnd := selection_not_destructive e
          (getDevice_events cfg w e (by rw [hD2]; exact he))
        exact ⟨hnd.2.2.1, hnd.1⟩
      · subst he; exact ⟨rfl, rfl⟩
      · subst he; exact ⟨rfl, rfl⟩
  · intro hyes
    unfold Flash
    rw [hs, hd]
    simp [hi, ha, hyes]

/-- Witness for C10 at a configured interactive run answering `no`. -/
theorem c10_confirmation_prefix_of_yes_witness :
    cfgConfirm.notInteractive = false ∧
    getSource cfgConfirm confirmNoW = (.ok [1], []) ∧
    getDevice cfgConfirm confirmNoW = (.ok dev1, []) ∧
    confirmNoW.ask confirmQuestion = .ok ['n', 'o'] ∧
    ((confirmAccepted ['n', 'o'] = true ↔
      goTrimSpace (goToLower ['n', 'o']) = [] ∨
      goTrimSpace (goToLower ['n', 'o']) = ['y'] ∨
      goTrimSpace (goToLower ['n', 'o']) = ['y', 'e'] ∨
      goTrimSpace (goToLower ['n', 'o']) = ['y', 'e', 's']) ∧
     confirmAccepted [] = true ∧
     (confirmAccepted ['n', 'o'] = false →
       (Flash cfgConfirm confirmNoW).1 = .error .canceledByUser ∧
       ∀ e ∈ (Flash cfgConfirm confirmNoW).2, isUmountEv e = false ∧ isWriteEv e = false) ∧
     (confirmAccepted ['n', 'o'] = true →
       Flash cfgConfirm confirmNoW =
         ((flashAndVerify cfgConfirm confirmNoW [1] dev1).1,
          [] ++ [] ++ [.say ("Going to flash to " ++ dev1.device ++ ".")] ++
            .asked confirmQuestion ::
              (flashAndVerify cfgConfirm confirmNoW [1] dev1).2))) :=
  ⟨rfl, by decide, by decide, rfl,
   c10_confirmation_prefix_of_yes cfgConfirm confirmNoW [1] dev1 ['n', 'o'] [] []
     rfl (by decide) (by decide) rfl⟩

end Flasher
